import Mathlib

/-!
Verification development for the BQ35100 fuel-gauge driver
(src/drivers/fuel_gauge/bq35100/bq35100.c).

The driver is shallowly embedded:
  * pure helpers (checksum, unit conversions, capacity derivations) become
    Lean functions on Nat / Int, with explicit two-complement casts where the
    C code truncates to a fixed width;
  * the transport-facing operations become state-passing functions in a small
    monad over an explicit device state (tracked security mode, transaction
    counter, trace of bus events), parameterised by an oracle that supplies
    the outcome of every transport transaction and the contents of
    uninitialized stack memory.

C conventions kept by the embedding: int return codes (0 = success), C
truncated division on signed values (Int.tdiv), modular arithmetic for
fixed-width casts, and the exact branch structure of the source, including
places where the source returns a success code on an error path.
-/

/-! ## Fixed-width helpers -/

/-- Truncating cast of a mathematical integer to the value range of a
32-bit two-complement machine word, as performed by a C cast to int32_t. -/
def int32ofInt (x : Int) : Int :=
  (x + 2 ^ 31) % 2 ^ 32 - 2 ^ 31

/-- Sign extension of a byte stored in a (signed) C char, as it is read back
in integer arithmetic. -/
def sext8 (b : Nat) : Int :=
  if b % 256 < 128 then (b % 256 : Int) else (b % 256 : Int) - 256

/-- Little-endian 16-bit decode of the first two bytes of a buffer
(sys_get_le16). -/
def sys_get_le16 (l : List Nat) : Nat :=
  l.getD 0 0 % 256 + l.getD 1 0 % 256 * 256

/-- Little-endian 32-bit decode of the first four bytes of a buffer
(sys_get_le32). -/
def sys_get_le32 (l : List Nat) : Nat :=
  l.getD 0 0 % 256 + l.getD 1 0 % 256 * 256 + l.getD 2 0 % 256 * 65536 +
    l.getD 3 0 % 256 * 16777216

/-- Little-endian 16-bit encode (sys_put_le16). -/
def sys_put_le16 (v : Nat) : List Nat :=
  [v % 256, v / 256 % 256]

/-! ## Register and opcode constants

SECURITY_* values are from the enum in bq35100.c.  The register addresses and
opcodes live in bq35100.h, which is not part of the sources; the MAC data-sum
and data-length addresses are documented in comments of bq35100.c, the rest
is modelled from the spec ("Register address map and opcode constants ... are
a fixed external constant table").  None of the proved claims depends on the
numeric values of the modelled constants. -/

def SECURITY_UNKNOWN : Nat := 0x00
def SECURITY_FULL_ACCESS : Nat := 0x01
def SECURITY_UNSEALED : Nat := 0x02
def SECURITY_SEALED : Nat := 0x03

/-- Modelled from the spec: control/status register address (bq35100.h). -/
def BQ35100_REG_CONTROL_STATUS : Nat := 0x00

/-- Modelled from the spec: ManufacturerAccessControl register (bq35100.h). -/
def BQ35100_REG_MAC : Nat := 0x3E

/-- MAC checksum register, value documented in a bq35100.c comment. -/
def BQ35100_REG_MAC_DATA_SUM : Nat := 0x60

/-- Modelled from the spec: SEALED control opcode (bq35100.h). -/
def BQ35100_MAC_CMD_SEALED : Nat := 0x0020

/-- Modelled from the spec: extended-memory address of the full-access key
(bq35100.h). -/
def BQ35100_FLASH_FULL_ACCESS_CODES : Nat := 0x41D0

/-- Modelled from the spec: default unseal key (bq35100.h). -/
def BQ35100_DEFAULT_SEAL_CODES : Nat := 0x04143672

def BQ35100_FLASH_WRITE_DELAY : Nat := 100

/-- C errno value EINVAL as used by the driver (returned negated). -/
def EINVAL : Int := 22

/-- C errno value 5 as used by the driver (returned negated). -/
def eioErr : Int := 5

/-! ## Checksum codec (bq35100_compute_checksum)

The C loop adds the bytes in 8-bit arithmetic and returns 0xFF minus the sum.
The loop counter x is a uint8_t compared against the size_t length, so the C
function only terminates (and only reads length bytes) for length <= 254; all
in-driver calls pass lengths of at most 253.  The embedding takes the byte
sequence as a list whose length is that length argument. -/

def bq35100_compute_checksum (data : List Nat) : Nat :=
  0xFF - data.foldl (fun c b => (c + b) % 256) 0

/-! ## Capacity derivations -/

/-- calculate_remaining_capacity: 64-bit arithmetic on the two 32-bit inputs,
clamped into [0, design * 1000], then cast back to int32_t. -/
def calculate_remaining_capacity (design_capacity accumulated_capacity : Int) : Int :=
  let design_capacity_uah := design_capacity * 1000
  let remaining_capacity := design_capacity_uah + accumulated_capacity
  let remaining_capacity :=
    if remaining_capacity < 0 then 0
    else if remaining_capacity > design_capacity_uah then design_capacity_uah
    else remaining_capacity
  int32ofInt remaining_capacity

/-- The FUEL_GAUGE_ABSOLUTE_STATE_OF_CHARGE arm of bq35100_process_prop, as a
function of the decoded design and accumulated capacities.  CLAMP(val, lo, hi)
is the Zephyr macro ((val <= lo) ? lo : MIN(val, hi)); C division on int64_t
truncates toward zero (Int.tdiv). -/
def bq35100_soc_from (design accumulated : Int) : Int :=
  let remaining := calculate_remaining_capacity design accumulated
  if design ≤ 0 then 0
  else
    let soc := Int.tdiv (remaining * 100) (design * 1000)
    int32ofInt (if soc ≤ 0 then 0 else min soc 100)

/-- The fuel-gauge properties handled by bq35100_process_prop. -/
inductive FGProp where
  | voltage
  | current
  | design_cap
  | remaining_capacity
  | absolute_state_of_charge
  deriving DecidableEq, Repr

/-- bq35100_process_prop: raw register bytes to the physical value stored in
the property union.  Returns (result code, stored value).  Voltage and
current multiply the zero-extended 16-bit raw value by 1000 in uint32_t
arithmetic and cast the product to int32_t. -/
def bq35100_process_prop (prop : FGProp) (buffer : List Nat) : Int × Int :=
  match prop with
  | .voltage => (0, int32ofInt ((sys_get_le16 buffer * 1000) % 2 ^ 32 : Nat))
  | .current => (0, int32ofInt ((sys_get_le16 buffer * 1000) % 2 ^ 32 : Nat))
  | .design_cap => (0, (sys_get_le16 buffer : Int))
  | .remaining_capacity =>
      let accumulated := int32ofInt (sys_get_le32 buffer : Nat)
      let design : Int := sys_get_le16 (buffer.drop 4)
      (0, calculate_remaining_capacity design accumulated)
  | .absolute_state_of_charge =>
      let accumulated := int32ofInt (sys_get_le32 buffer : Nat)
      let design : Int := sys_get_le16 (buffer.drop 4)
      (0, bq35100_soc_from design accumulated)

/-! ## Basic arithmetic lemmas -/

theorem int32ofInt_eq_self {x : Int} (h1 : -(2 ^ 31) ≤ x) (h2 : x < 2 ^ 31) :
    int32ofInt x = x := by
  unfold int32ofInt
  omega

theorem checksum_foldl_eq_sum (data : List Nat) :
    data.foldl (fun c b => (c + b) % 256) 0 = data.sum % 256 := by
  suffices h : ∀ a : Nat, data.foldl (fun c b => (c + b) % 256) (a % 256) = (a + data.sum) % 256 by
    simpa using h 0
  induction data with
  | nil => simp
  | cons x xs ih =>
      intro a
      simp only [List.foldl_cons, List.sum_cons]
      rw [show (a % 256 + x) % 256 = (a + x) % 256 by omega, ih (a + x)]
      omega

theorem remaining_capacity_bounds (design acc : Int)
    (hd0 : 0 ≤ design) (hd1 : design ≤ 65535)
    (ha0 : -(2 ^ 31) ≤ acc) (ha1 : acc < 2 ^ 31) :
    calculate_remaining_capacity design acc =
      max 0 (min (design * 1000 + acc) (design * 1000)) := by
  simp only [calculate_remaining_capacity]
  split_ifs with h1 h2 <;> rw [int32ofInt_eq_self (by omega) (by omega)] <;> omega

/-- The conditional clamp written in the SOC arm of bq35100_process_prop
(Zephyr CLAMP macro) agrees with min/max. -/
theorem clamp_0_100_eq (soc : Int) :
    (if soc ≤ 0 then 0 else min soc 100) = min 100 (max 0 soc) := by
  split_ifs with h <;> omega

theorem soc_eq_clamp (design acc : Int) (hd0 : 0 < design) (hd1 : design ≤ 65535)
    (ha0 : -(2 ^ 31) ≤ acc) (ha1 : acc < 2 ^ 31) :
    bq35100_soc_from design acc =
      min 100 (max 0 (calculate_remaining_capacity design acc * 100 / (design * 1000))) := by
  have hb := remaining_capacity_bounds design acc (le_of_lt hd0) hd1 ha0 ha1
  have hr0 : 0 ≤ calculate_remaining_capacity design acc := by
    rw [hb]; exact le_max_left _ _
  simp only [bq35100_soc_from]
  rw [if_neg (by omega), Int.tdiv_eq_ediv (by positivity) (by positivity), clamp_0_100_eq,
    int32ofInt_eq_self (le_trans (by norm_num) (le_min (by norm_num) (le_max_left _ _)))
      (lt_of_le_of_lt (min_le_left _ _) (by norm_num))]

/-! ## Claim theorems for the pure computations -/

/-- C4 (code evidence): the Current arm of bq35100_process_prop zero-extends
the 16-bit raw value before multiplying by 1000, so raw 65436 (bytes
9C FF little-endian) yields +65436000 uA rather than the -100000 uA that a
two-complement reading of the register would give; the Voltage arm maps raw
3700 (bytes 74 0E) to 3700000 uV as the claim states. -/
theorem claim_C4_current_not_sign_extended :
    (bq35100_process_prop .current [0x9C, 0xFF]).2 = 65436000 ∧
    (bq35100_process_prop .current [0x9C, 0xFF]).2 ≠ -100000 ∧
    (bq35100_process_prop .voltage [0x74, 0x0E]).2 = 3700000 := by
  decide

/-- C5: over the value ranges the driver feeds into it (a 16-bit design
capacity register and a 32-bit signed accumulated-capacity register),
calculate_remaining_capacity returns clamp(design*1000 + accumulated, 0,
design*1000). -/
theorem claim_C5_remaining_is_clamp (design acc : Int)
    (hd0 : 0 ≤ design) (hd1 : design ≤ 65535)
    (ha0 : -(2 ^ 31) ≤ acc) (ha1 : acc < 2 ^ 31) :
    calculate_remaining_capacity design acc =
      max 0 (min (design * 1000 + acc) (design * 1000)) :=
  remaining_capacity_bounds design acc hd0 hd1 ha0 ha1

/-- Witness for C5 at the three vectors of the claim. -/
theorem claim_C5_remaining_is_clamp_witness :
    calculate_remaining_capacity 2000 (-500000) = 1500000 ∧
    calculate_remaining_capacity 2000 (-5000000) = 0 ∧
    calculate_remaining_capacity 2000 100000 = 2000000 := by
  refine ⟨?_, by decide, by decide⟩
  rw [claim_C5_remaining_is_clamp 2000 (-500000) (by decide) (by decide) (by decide) (by decide)]
  decide

/-- C6: the absolute state of charge equals
clamp(remaining*100 / (design*1000), 0, 100) when design > 0 and is 0 when
design is not positive, so the division is always guarded. -/
theorem claim_C6_soc_clamped_guarded (design acc : Int)
    (hd1 : design ≤ 65535) (ha0 : -(2 ^ 31) ≤ acc) (ha1 : acc < 2 ^ 31) :
    (design ≤ 0 → bq35100_soc_from design acc = 0) ∧
    (0 < design → bq35100_soc_from design acc =
      min 100 (max 0 (calculate_remaining_capacity design acc * 100 / (design * 1000)))) := by
  constructor
  · intro h
    simp only [bq35100_soc_from]
    rw [if_pos h]
  · intro h
    exact soc_eq_clamp design acc h hd1 ha0 ha1

/-- Witness for C6: the vectors of the claim, soc(2000, -1000000) = 50 and
soc(0, acc) = 0. -/
theorem claim_C6_soc_clamped_guarded_witness :
    bq35100_soc_from 2000 (-1000000) = 50 ∧ bq35100_soc_from 0 123456 = 0 := by
  constructor
  · rw [(claim_C6_soc_clamped_guarded 2000 (-1000000) (by decide) (by decide) (by decide)).2
      (by decide)]
    decide
  · exact (claim_C6_soc_clamped_guarded 0 123456 (by decide) (by decide) (by decide)).1
      (by decide)

/-- C7: for byte sequences (each byte < 256, and length at most 254 so that
the uint8_t loop counter of the C function covers the whole input),
bq35100_compute_checksum is 0xFF minus the byte sum mod 256; appending the
checksum to the payload makes the bytes sum to 0xFF mod 256, and a frame
checksum byte verifies (sums to 0xFF) exactly when it equals the recomputed
checksum. -/
theorem claim_C7_checksum_roundtrip (B : List Nat)
    (_hbytes : ∀ b ∈ B, b < 256) (_hlen : B.length ≤ 254) :
    bq35100_compute_checksum B = 0xFF - B.sum % 256 ∧
    (B ++ [bq35100_compute_checksum B]).sum % 256 = 0xFF ∧
    ∀ c : Nat, c < 256 → ((B ++ [c]).sum % 256 = 0xFF ↔ c = bq35100_compute_checksum B) := by
  have h1 : bq35100_compute_checksum B = 0xFF - B.sum % 256 := by
    unfold bq35100_compute_checksum
    rw [checksum_foldl_eq_sum]
  refine ⟨h1, ?_, ?_⟩
  · simp only [List.sum_append, List.sum_cons, List.sum_nil, h1]
    omega
  · intro c hc
    simp only [List.sum_append, List.sum_cons, List.sum_nil, h1]
    omega

/-- Witness for C7 on a concrete frame. -/
theorem claim_C7_checksum_roundtrip_witness :
    bq35100_compute_checksum [0x12, 0x34] = 0xFF - ([0x12, 0x34] : List Nat).sum % 256 ∧
    ([0x12, 0x34] ++ [bq35100_compute_checksum [0x12, 0x34]]).sum % 256 = 0xFF := by
  have h := claim_C7_checksum_roundtrip [0x12, 0x34] (by decide) (by decide)
  exact ⟨h.1, h.2.1⟩

/-- C10: with a design capacity from the 16-bit register and a 32-bit signed
accumulated capacity, the 64-bit intermediates of
calculate_remaining_capacity stay far inside the int64_t range, and the
result lies in [0, design*1000], which itself fits in int32_t. -/
theorem claim_C10_remaining_no_overflow (design acc : Int)
    (hd0 : 0 ≤ design) (hd1 : design ≤ 65535)
    (ha0 : -(2 ^ 31) ≤ acc) (ha1 : acc < 2 ^ 31) :
    (-(2 ^ 63) ≤ design * 1000 + acc ∧ design * 1000 + acc < 2 ^ 63) ∧
    0 ≤ calculate_remaining_capacity design acc ∧
    calculate_remaining_capacity design acc ≤ design * 1000 ∧
    design * 1000 < 2 ^ 31 := by
  have hb := remaining_capacity_bounds design acc hd0 hd1 ha0 ha1
  refine ⟨⟨by omega, by omega⟩, ?_, ?_, by omega⟩
  · rw [hb]; exact le_max_left _ _
  · rw [hb]; exact max_le (by omega) (min_le_right _ _)

/-- Witness for C10. -/
theorem claim_C10_remaining_no_overflow_witness :
    0 ≤ calculate_remaining_capacity 2000 (-500000) ∧
    calculate_remaining_capacity 2000 (-500000) ≤ 2000 * 1000 := by
  have h := claim_C10_remaining_no_overflow 2000 (-500000)
    (by decide) (by decide) (by decide) (by decide)
  exact ⟨h.2.1, h.2.2.1⟩

/-! ## Device-state monad

The transport-facing driver functions are embedded as state-passing
functions.  The state holds the process-wide g_security_mode, the index of
the next transport transaction, and the trace of bus events performed so
far.  The oracle DEnv decides the outcome of each transaction (an error code,
or the bytes a read returns) and supplies the contents of uninitialized
stack memory wherever the C code can read an uninitialized local. -/

/-- An observable event on the I2C bus (or a blocking sleep). -/
inductive BusEv where
  | wr : List Nat → BusEv
  | rd : Nat → BusEv
  | slp : Nat → BusEv
  deriving DecidableEq, Repr

/-- Oracle for one run: outcome of the n-th transport transaction, and
arbitrary bytes standing for uninitialized stack memory. -/
structure DEnv where
  i2c : Nat → Except Int (List Nat)
  stack : Nat → Nat

/-- Mutable state threaded through the driver: the g_security_mode global,
the transaction counter and the event trace. -/
structure DState where
  mode : Nat
  nOps : Nat
  trace : List BusEv
  deriving DecidableEq, Repr

def DM (α : Type) : Type := DState → α × DState

instance : Monad DM where
  pure a := fun s => (a, s)
  bind m f := fun s => let p := m s; f p.1 p.2

/-- One i2c_write_dt transaction: the oracle gives the error code (0 on
success); the write is appended to the trace. -/
def i2cWriteOp (env : DEnv) (bytes : List Nat) : DM Int := fun s =>
  (match env.i2c s.nOps with | .ok _ => 0 | .error e => e,
   { s with nOps := s.nOps + 1, trace := s.trace ++ [.wr bytes] })

/-- One i2c_read_dt transaction of len bytes. -/
def i2cReadOp (env : DEnv) (len : Nat) : DM (Except Int (List Nat)) := fun s =>
  (match env.i2c s.nOps with
   | .ok bs => .ok ((bs.map (· % 256) ++ List.replicate len 0).take len)
   | .error e => .error e,
   { s with nOps := s.nOps + 1, trace := s.trace ++ [.rd len] })

/-- k_sleep: recorded on the trace, no other effect. -/
def k_sleepOp (ms : Nat) : DM Unit := fun s =>
  ((), { s with trace := s.trace ++ [.slp ms] })

/-- Read the g_security_mode global. -/
def getModeM : DM Nat := fun s => (s.mode, s)

/-- Write the g_security_mode global. -/
def setModeM (m : Nat) : DM Unit := fun s => ((), { s with mode := m })

/-! ## Transport helpers (bq35100_write .. bq35100_get_status) -/

/-- bq35100_write: a single I2C write of a byte buffer. -/
def bq35100_write (env : DEnv) (data : List Nat) : DM Int :=
  i2cWriteOp env data

/-- bq35100_read: I2C write of the register address bytes followed by an I2C
read; a failing write short-circuits. -/
def bq35100_read (env : DEnv) (write_data : List Nat) (read_len : Nat) :
    DM (Except Int (List Nat)) := do
  let r ← i2cWriteOp env write_data
  if r ≠ 0 then pure (.error r) else i2cReadOp env read_len

/-- bq35100_send_data: writes [address, data...]; every caller passes a
2-byte payload, filling the 3-byte buffer of the C function. -/
def bq35100_send_data (env : DEnv) (address : Nat) (data : List Nat) : DM Int :=
  bq35100_write env (address :: data)

/-- bq35100_get_data: write-then-read at a register address. -/
def bq35100_get_data (env : DEnv) (address : Nat) (len : Nat) :
    DM (Except Int (List Nat)) :=
  bq35100_read env [address] len

/-- bq35100_send_cntl: little-endian 16-bit control opcode written to the
control/status register. -/
def bq35100_send_cntl (env : DEnv) (cntl_address : Nat) : DM Int :=
  bq35100_send_data env BQ35100_REG_CONTROL_STATUS (sys_put_le16 cntl_address)

/-- bq35100_get_status: 2-byte little-endian read of the control/status
register.  Returns the C result code together with the value stored through
the out-pointer (none when the read failed and the out-variable of the
caller keeps its previous contents). -/
def bq35100_get_status (env : DEnv) : DM (Int × Option Nat) := do
  let r ← bq35100_get_data env BQ35100_REG_CONTROL_STATUS 2
  match r with
  | .error e => pure (e, none)
  | .ok bytes => pure (0, some (sys_get_le16 bytes))

/-- bq35100_get_security_mode: reads the status twice (the first result is
discarded by the C code), extracts bits 13..14, and stores the mode through
the out-pointer (the g_security_mode global at the call sites) only when it
is one of the three valid modes.  On a failed status read or an invalid
field the C function returns SECURITY_UNKNOWN, whose numeric value is 0. -/
def bq35100_get_security_mode (env : DEnv) : DM Int := do
  let _ ← bq35100_get_status env
  let p ← bq35100_get_status env
  if p.1 ≠ 0 then pure (SECURITY_UNKNOWN : Nat)
  else
    let extracted := p.2.getD 0 / 2 ^ 13 % 4
    if extracted = SECURITY_FULL_ACCESS ∨ extracted = SECURITY_UNSEALED ∨
        extracted = SECURITY_SEALED then do
      setModeM extracted
      pure 0
    else pure (SECURITY_UNKNOWN : Nat)

/-! ## Status polling (bq35100_wait_for_status) -/

/-- The retry loop of bq35100_wait_for_status.  The C function returns
false (0) as soon as bq35100_get_status succeeds, because the negated int
result of bq35100_get_status is true exactly on success; it returns true (1)
when the (possibly never successfully read) answer variable matches, and
-EINVAL when the retries are exhausted.  The answer variable is only
assigned by a successful status read. -/
def bq35100_wait_for_status_loop (env : DEnv) (expected mask millis : Nat) :
    Nat → Nat → DM Int
  | 0, _ => pure (-EINVAL)
  | i + 1, answer => do
    let p ← bq35100_get_status env
    let answer := p.2.getD answer
    if p.1 = 0 then pure 0
    else if answer &&& mask = expected then pure 1
    else do
      k_sleepOp millis
      bq35100_wait_for_status_loop env expected mask millis i answer

/-- bq35100_wait_for_status with CONFIG_BQ35100_MAX_RETRIES passed explicitly
(it is a Kconfig constant outside the sources).  The local answer variable is
uninitialized, so its initial value comes from the stack oracle. -/
def bq35100_wait_for_status (env : DEnv) (maxRetries expected mask millis : Nat) : DM Int :=
  bq35100_wait_for_status_loop env expected mask millis maxRetries (env.stack 0 % 65536)

/-! ## Security state machine and extended-memory protocol

bq35100_set_security_mode and bq35100_read_extended_data are mutually
recursive in the C source (FULL_ACCESS reads its key through the
extended-memory protocol, which may itself restore a security mode).  The
recursion depth is bounded by the transition graph; the embedding makes this
explicit with a fuel parameter, where -999 marks the unreachable fuel-out
case.  All functions mirror the C control flow block by block; the shared
verification tail after the switch of bq35100_set_security_mode is
setSecVerify, and the END labels become readExtEnd / writeExtEnd. -/

/-- Bytes written by a block transfer overlaid on the previous contents of a
caller buffer (memcpy into a stack array). -/
def overlayBytes (old new : List Nat) : List Nat :=
  new ++ old.drop new.length

/-- The uint32_t full-access code assembled from four (signed) char values:
(buffer[0] << 24) + (buffer[1] << 16) + (buffer[2] << 8) + buffer[3] in int
arithmetic, converted to uint32_t. -/
def full_access_codes_of (buf : List Nat) : Nat :=
  ((sext8 (buf.getD 0 0) * 2 ^ 24 + sext8 (buf.getD 1 0) * 2 ^ 16 +
    sext8 (buf.getD 2 0) * 2 ^ 8 + sext8 (buf.getD 3 0)) % 2 ^ 32).toNat

/-- The verification tail of bq35100_set_security_mode: re-read the actual
mode into g_security_mode, fail on a read error, exit the retry loop with 0
when the observed mode equals the requested one, and return -EIO otherwise.
Except.error models the direct returns out of the C function, Except.ok the
fall-through to the loop condition. -/
def setSecVerify (env : DEnv) (new_security : Nat) : DM (Except Int Int) := do
  let r ← bq35100_get_security_mode env
  if r ≠ 0 then pure (.error r)
  else do
    let m ← getModeM
    if m = new_security then pure (.ok 0) else pure (.error (-eioErr))

/-- The SECURITY_UNSEALED arm after its possible seal transition: the two
halves of the default unseal key written to the control/status register with
a settle delay between them. -/
def setSecUnsealCont (env : DEnv) (new_security : Nat) : DM (Except Int Int) := do
  let r ← bq35100_write env [BQ35100_REG_CONTROL_STATUS,
    BQ35100_DEFAULT_SEAL_CODES / 2 ^ 16 % 256, BQ35100_DEFAULT_SEAL_CODES / 2 ^ 24 % 256]
  if r ≠ 0 then pure (.error r)
  else do
    k_sleepOp BQ35100_FLASH_WRITE_DELAY
    let r ← bq35100_write env [BQ35100_REG_CONTROL_STATUS,
      BQ35100_DEFAULT_SEAL_CODES % 256, BQ35100_DEFAULT_SEAL_CODES / 2 ^ 8 % 256]
    if r ≠ 0 then pure (.error r) else setSecVerify env new_security

mutual

/-- bq35100_set_security_mode.  A same-state request returns 0 before any
transport traffic; SECURITY_UNKNOWN is rejected as a target; otherwise the
bounded retry loop runs (its body in fact leaves the C function on every
path, see setSecLoop / setSecIter). -/
def bq35100_set_security_mode (env : DEnv) (maxRetries fuel new_security : Nat) : DM Int :=
  match fuel with
  | 0 => pure (-999)
  | fuel + 1 => do
    let m ← getModeM
    if new_security = m then pure 0
    else if new_security = SECURITY_UNKNOWN then pure (-EINVAL)
    else setSecLoop env maxRetries new_security fuel maxRetries (-EINVAL)
termination_by fuel * 8
decreasing_by all_goals omega

/-- The for loop of bq35100_set_security_mode: runs while attempts remain
and result is nonzero.  Except.error out of the body is a direct return from
the C function. -/
def setSecLoop (env : DEnv) (maxRetries new_security : Nat) (fuel i : Nat) (result : Int) :
    DM Int :=
  match i, fuel with
  | 0, _ => pure result
  | _ + 1, 0 => pure result
  | i + 1, fuel + 1 =>
    if result = 0 then pure result
    else do
      let out ← setSecIter env maxRetries fuel new_security
      match out with
      | .error r => pure r
      | .ok r => setSecLoop env maxRetries new_security fuel i r
termination_by fuel * 8 + 3
decreasing_by all_goals omega

/-- One iteration of the retry loop: buffer[0] is set to the MAC register
(the other three bytes of the char buffer are uninitialized), then the
switch on the requested mode runs, each arm ending in the shared
verification tail. -/
def setSecIter (env : DEnv) (maxRetries fuel new_security : Nat) : DM (Except Int Int) :=
  match fuel with
  | 0 => pure (.error (-999))
  | fuel + 1 => do
    let buf : List Nat :=
      [BQ35100_REG_MAC, env.stack 1 % 256, env.stack 2 % 256, env.stack 3 % 256]
    if new_security = SECURITY_SEALED then do
      let r ← bq35100_send_cntl env BQ35100_MAC_CMD_SEALED
      if r ≠ 0 then pure (.error r) else setSecVerify env new_security
    else if new_security = SECURITY_FULL_ACCESS then do
      let m ← getModeM
      if m = SECURITY_SEALED then do
        let r ← bq35100_set_security_mode env maxRetries fuel SECURITY_UNSEALED
        if r ≠ 0 then pure (.error r) else setSecFullCont env maxRetries fuel buf new_security
      else setSecFullCont env maxRetries fuel buf new_security
    else if new_security = SECURITY_UNSEALED then do
      let m ← getModeM
      if m = SECURITY_FULL_ACCESS then do
        let r ← bq35100_set_security_mode env maxRetries fuel SECURITY_SEALED
        if r ≠ 0 then pure (.error r) else setSecUnsealCont env new_security
      else setSecUnsealCont env new_security
    else setSecVerify env new_security
termination_by fuel * 8 + 2
decreasing_by all_goals omega

/-- The SECURITY_FULL_ACCESS arm after its possible unseal transition: read
the 4-byte full-access key through the extended-memory protocol into the
char buffer (clobbering buffer[0]), assemble it in signed char arithmetic,
and send its two halves in two writes. -/
def setSecFullCont (env : DEnv) (maxRetries fuel : Nat) (buf : List Nat) (new_security : Nat) :
    DM (Except Int Int) := do
  let p ← bq35100_read_extended_data env maxRetries fuel BQ35100_FLASH_FULL_ACCESS_CODES 4
  if p.1 ≠ 0 then pure (.error p.1)
  else
    let buf := overlayBytes buf p.2
    let codes := full_access_codes_of buf
    let r ← bq35100_write env [buf.getD 0 0, codes / 2 ^ 16 % 256, codes / 2 ^ 24 % 256]
    if r ≠ 0 then pure (.error r)
    else do
      let r ← bq35100_write env [buf.getD 0 0, codes % 256, codes / 2 ^ 8 % 256]
      if r ≠ 0 then pure (.error r) else setSecVerify env new_security
termination_by fuel * 8 + 5
decreasing_by all_goals omega

/-- bq35100_read_extended_data: precondition checks, implicit unseal when
sealed, then the framed block read (readExtBody). -/
def bq35100_read_extended_data (env : DEnv) (maxRetries fuel address len : Nat) :
    DM (Int × List Nat) :=
  match fuel with
  | 0 => pure (-999, [])
  | fuel + 1 => do
    let prev ← getModeM
    if prev = SECURITY_UNKNOWN then pure (-EINVAL, [])
    else if address < 0x4000 ∨ 0x43FF < address then pure (-EINVAL, [])
    else if prev = SECURITY_SEALED then do
      let r ← bq35100_set_security_mode env maxRetries fuel SECURITY_UNSEALED
      if r ≠ 0 then pure (-EINVAL, [])
      else readExtBody env maxRetries fuel prev address len
    else readExtBody env maxRetries fuel prev address len
termination_by fuel * 8 + 4
decreasing_by all_goals omega

/-- The body of bq35100_read_extended_data after its precondition checks:
write the address to the MAC register, read back the 36-byte frame, check
the address echo and the checksum, and deliver length-byte minus 4 bytes
(clamped to the caller buffer).  The C code stores the result of the frame
read but does not test it before using the buffer (src line 277): on a
failed read the buffer keeps the two address bytes written by sys_put_le16
followed by uninitialized bytes. -/
def readExtBody (env : DEnv) (maxRetries fuel prev address len : Nat) :
    DM (Int × List Nat) := do
  let lo := address % 256
  let hi := address / 256 % 256
  let r ← bq35100_send_data env BQ35100_REG_MAC [lo, hi]
  if r ≠ 0 then readExtEnd env maxRetries fuel prev (-EINVAL) []
  else do
    let er ← bq35100_read env [BQ35100_REG_MAC] 36
    let result : Int := match er with | .ok _ => 0 | .error e => e
    let buffer : List Nat := match er with
      | .ok bs => bs
      | .error _ => lo :: hi :: (List.range 34).map fun k => env.stack (k + 2) % 256
    if buffer.getD 0 0 ≠ lo ∨ buffer.getD 1 0 ≠ hi then
      readExtEnd env maxRetries fuel prev (-EINVAL) []
    else if buffer.getD 34 0 ≠ bq35100_compute_checksum (buffer.take (buffer.getD 35 0 - 2)) then
      readExtEnd env maxRetries fuel prev (-EINVAL) []
    else
      readExtEnd env maxRetries fuel prev result
        ((buffer.drop 2).take (min (buffer.getD 35 0 - 4) len))
termination_by fuel * 8 + 3
decreasing_by all_goals omega

/-- The END label of bq35100_read_extended_data: restore the entry security
mode if this call changed it, overwriting result with the outcome of the
restoration. -/
def readExtEnd (env : DEnv) (maxRetries fuel prev : Nat) (result : Int) (data : List Nat) :
    DM (Int × List Nat) := do
  let cur ← getModeM
  if prev ≠ cur then do
    let r ← bq35100_set_security_mode env maxRetries fuel prev
    pure (r, data)
  else pure (result, data)
termination_by fuel * 8 + 1
decreasing_by all_goals omega

end

/-- The END label of bq35100_write_extended_data: restore the entry security
mode if this call changed it, overwriting result with the outcome of the
restoration. -/
def writeExtEnd (env : DEnv) (maxRetries fuel prev : Nat) (result : Int) : DM Int := do
  let cur ← getModeM
  if prev ≠ cur then bq35100_set_security_mode env maxRetries fuel prev
  else pure result

/-- The body of bq35100_write_extended_data after its precondition checks:
one write of [MAC register, address, payload], a settle delay, one write of
[checksum register, checksum over address+payload, length+4], a settle
delay, then the status readback.  When bit 15 of the status is set the C
code logs "Write failed" and jumps to END with result still 0. -/
def writeExtBody (env : DEnv) (maxRetries fuel prev address : Nat) (data : List Nat) : DM Int := do
  let lo := address % 256
  let hi := address / 256 % 256
  let r ← bq35100_write env (BQ35100_REG_MAC :: lo :: hi :: data)
  if r ≠ 0 then writeExtEnd env maxRetries fuel prev r
  else do
    k_sleepOp BQ35100_FLASH_WRITE_DELAY
    let chk := bq35100_compute_checksum (lo :: hi :: data)
    let r ← bq35100_write env [BQ35100_REG_MAC_DATA_SUM, chk, (data.length + 4) % 256]
    if r ≠ 0 then writeExtEnd env maxRetries fuel prev r
    else do
      k_sleepOp BQ35100_FLASH_WRITE_DELAY
      let p ← bq35100_get_status env
      if p.1 ≠ 0 then writeExtEnd env maxRetries fuel prev p.1
      else if p.2.getD 0 &&& 2 ^ 15 ≠ 0 then writeExtEnd env maxRetries fuel prev 0
      else writeExtEnd env maxRetries fuel prev 0

/-- bq35100_write_extended_data: the C function returns false (numerically
0, the success code of its int contract) on the security-unknown and
invalid-argument checks, unseals when sealed, then runs the framed block
write (writeExtBody). -/
def bq35100_write_extended_data (env : DEnv) (maxRetries fuel address : Nat) (data : List Nat) :
    DM Int :=
  match fuel with
  | 0 => pure (-999)
  | fuel + 1 => do
    let prev ← getModeM
    if prev = SECURITY_UNKNOWN then pure 0
    else if address < 0x4000 ∨ 0x43FF < address ∨ data.length < 1 ∨ 32 < data.length then
      pure 0
    else if prev = SECURITY_SEALED then do
      let r ← bq35100_set_security_mode env maxRetries fuel SECURITY_UNSEALED
      if r ≠ 0 then pure (-EINVAL)
      else writeExtBody env maxRetries fuel prev address data
    else writeExtBody env maxRetries fuel prev address data

/-! ## Pointwise unfolding lemmas for the monad -/

theorem bind_apply {α β : Type} (m : DM α) (f : α → DM β) (s : DState) :
    (m >>= f) s = f (m s).1 (m s).2 := rfl

theorem pure_apply {α : Type} (a : α) (s : DState) : (pure a : DM α) s = (a, s) := rfl

theorem getModeM_apply (s : DState) : getModeM s = (s.mode, s) := rfl

/-! ## Claim theorems for the transport-facing operations -/

/-- C1 (code evidence): bq35100_wait_for_status inverts both result
conventions.  First conjunct: with a transport whose status reads always
succeed and always return status 0, polling for bit 0 (expected 1, mask 1)
returns 0 - the success code of the int contract used by every caller - on
the very first poll, although no observed status ever matched.  Second
conjunct: with a transport whose reads always fail and an uninitialized
answer variable that happens to hold 1, the function returns true (1), which
every caller treats as failure. -/
theorem claim_C1_wait_for_status_inverted :
    ((bq35100_wait_for_status ⟨fun _ => .ok [0, 0], fun _ => 0⟩ 3 1 1 500)
        ⟨SECURITY_SEALED, 0, []⟩).1 = 0 ∧
    ((bq35100_wait_for_status ⟨fun _ => .error (-eioErr), fun _ => 1⟩ 3 1 1 500)
        ⟨SECURITY_SEALED, 0, []⟩).1 = 1 := by
  decide

/-- C2 (code evidence): bq35100_write_extended_data returns false on its
precondition checks, and false is 0, the success code of its int contract
(its sibling bq35100_read_extended_data returns -EINVAL at the same checks).
With the security mode unknown, with an address below 0x4000, and with an
empty payload, the call returns 0 and leaves the state untouched (no
transport traffic, as the claim demands, but reported as success, which the
claim forbids). -/
theorem claim_C2_write_precondition_reports_success :
    bq35100_write_extended_data ⟨fun _ => .error (-eioErr), fun _ => 0⟩ 3 9 0x4100 [1, 2]
        ⟨SECURITY_UNKNOWN, 0, []⟩ = (0, ⟨SECURITY_UNKNOWN, 0, []⟩) ∧
    bq35100_write_extended_data ⟨fun _ => .error (-eioErr), fun _ => 0⟩ 3 9 0x3000 [1, 2]
        ⟨SECURITY_UNSEALED, 0, []⟩ = (0, ⟨SECURITY_UNSEALED, 0, []⟩) ∧
    bq35100_write_extended_data ⟨fun _ => .error (-eioErr), fun _ => 0⟩ 3 9 0x4100 []
        ⟨SECURITY_UNSEALED, 0, []⟩ = (0, ⟨SECURITY_UNSEALED, 0, []⟩) := by
  decide

/-- C3 (code evidence): with an unsealed device, a transport that accepts
the three writes of the extended write sequence and answers the final status
readback with 0x8000 (bit 15 set, write rejected), the whole protocol runs
(4 transactions) and bq35100_write_extended_data still returns 0: the
rejected-write branch jumps to END without setting a nonzero result. -/
theorem claim_C3_write_rejected_reports_success :
    ((bq35100_write_extended_data
        ⟨fun n => if n = 3 then .ok [0x00, 0x80] else .ok [], fun _ => 0⟩ 3 9 0x4100 [0xAB]
        ⟨SECURITY_UNSEALED, 0, []⟩).1 = 0) ∧
    ((bq35100_write_extended_data
        ⟨fun n => if n = 3 then .ok [0x00, 0x80] else .ok [], fun _ => 0⟩ 3 9 0x4100 [0xAB]
        ⟨SECURITY_UNSEALED, 0, []⟩).2.nOps = 4) := by
  decide

/-- C8: a SetMode request for the mode the driver already tracks returns 0
before any transport traffic (the state, trace included, is unchanged), and
a second identical request behaves identically, so same-state SetMode is an
idempotent no-op success. -/
theorem claim_C8_same_mode_noop_idempotent (env : DEnv) (maxRetries fuel m : Nat) (s : DState)
    (hm : s.mode = m) (_hu : m ≠ SECURITY_UNKNOWN) :
    bq35100_set_security_mode env maxRetries (fuel + 1) m s = (0, s) ∧
    bq35100_set_security_mode env maxRetries (fuel + 1) m
      (bq35100_set_security_mode env maxRetries (fuel + 1) m s).2 = (0, s) := by
  have h1 : bq35100_set_security_mode env maxRetries (fuel + 1) m s = (0, s) := by
    simp [bq35100_set_security_mode, bind_apply, getModeM_apply, pure_apply, hm]
  exact ⟨h1, by rw [h1]; exact h1⟩

/-- Witness for C8 at a concrete state and environment. -/
theorem claim_C8_same_mode_noop_idempotent_witness :
    bq35100_set_security_mode ⟨fun _ => .error (-eioErr), fun _ => 0⟩ 1 1 SECURITY_UNSEALED
        ⟨SECURITY_UNSEALED, 0, []⟩ = (0, ⟨SECURITY_UNSEALED, 0, []⟩) :=
  (claim_C8_same_mode_noop_idempotent ⟨fun _ => .error (-eioErr), fun _ => 0⟩ 1 0
    SECURITY_UNSEALED ⟨SECURITY_UNSEALED, 0, []⟩ rfl (by decide)).1

/-! ## Trace monotonicity

Every driver computation only appends to the bus-event trace.  This is the
invariant behind the C9 claim: the events of an inner transition are a
prefix of the events of the enclosing call. -/

def traceGrows {α : Type} (m : DM α) : Prop :=
  ∀ s : DState, ∃ t, ((m s).2).trace = s.trace ++ t

theorem traceGrows_pure {α : Type} (a : α) : traceGrows (pure a : DM α) :=
  fun _ => ⟨[], (List.append_nil _).symm⟩

theorem traceGrows_bind {α β : Type} {m : DM α} {f : α → DM β}
    (hm : traceGrows m) (hf : ∀ a, traceGrows (f a)) : traceGrows (m >>= f) := by
  intro s
  obtain ⟨t1, h1⟩ := hm s
  obtain ⟨t2, h2⟩ := hf ((m s).1) ((m s).2)
  exact ⟨t1 ++ t2, by rw [bind_apply, h2, h1, List.append_assoc]⟩

theorem traceGrows_ite {α : Type} (c : Prop) [Decidable c] {m1 m2 : DM α}
    (h1 : traceGrows m1) (h2 : traceGrows m2) : traceGrows (if c then m1 else m2) := by
  split <;> assumption

theorem traceGrows_i2cWriteOp (env : DEnv) (bytes : List Nat) :
    traceGrows (i2cWriteOp env bytes) :=
  fun _ => ⟨[.wr bytes], rfl⟩

theorem traceGrows_i2cReadOp (env : DEnv) (len : Nat) : traceGrows (i2cReadOp env len) :=
  fun _ => ⟨[.rd len], rfl⟩

theorem traceGrows_k_sleepOp (ms : Nat) : traceGrows (k_sleepOp ms) :=
  fun _ => ⟨[.slp ms], rfl⟩

theorem traceGrows_getModeM : traceGrows getModeM :=
  fun _ => ⟨[], (List.append_nil _).symm⟩

theorem traceGrows_setModeM (m : Nat) : traceGrows (setModeM m) :=
  fun _ => ⟨[], (List.append_nil _).symm⟩

theorem traceGrows_bq35100_write (env : DEnv) (data : List Nat) :
    traceGrows (bq35100_write env data) :=
  traceGrows_i2cWriteOp env data

theorem traceGrows_bq35100_read (env : DEnv) (wd : List Nat) (rl : Nat) :
    traceGrows (bq35100_read env wd rl) := by
  unfold bq35100_read
  exact traceGrows_bind (traceGrows_i2cWriteOp _ _) fun r =>
    traceGrows_ite _ (traceGrows_pure _) (traceGrows_i2cReadOp _ _)

theorem traceGrows_bq35100_send_data (env : DEnv) (a : Nat) (d : List Nat) :
    traceGrows (bq35100_send_data env a d) :=
  traceGrows_i2cWriteOp env _

theorem traceGrows_bq35100_send_cntl (env : DEnv) (c : Nat) :
    traceGrows (bq35100_send_cntl env c) :=
  traceGrows_i2cWriteOp env _

theorem traceGrows_bq35100_get_status (env : DEnv) : traceGrows (bq35100_get_status env) := by
  unfold bq35100_get_status
  refine traceGrows_bind (traceGrows_bq35100_read _ _ _) fun r => ?_
  cases r <;> exact traceGrows_pure _

theorem traceGrows_bq35100_get_security_mode (env : DEnv) :
    traceGrows (bq35100_get_security_mode env) := by
  unfold bq35100_get_security_mode
  refine traceGrows_bind (traceGrows_bq35100_get_status _) fun _ => ?_
  refine traceGrows_bind (traceGrows_bq35100_get_status _) fun p => ?_
  refine traceGrows_ite _ (traceGrows_pure _) (traceGrows_ite _ ?_ (traceGrows_pure _))
  exact traceGrows_bind (traceGrows_setModeM _) fun _ => traceGrows_pure _

theorem traceGrows_setSecVerify (env : DEnv) (t : Nat) : traceGrows (setSecVerify env t) := by
  unfold setSecVerify
  refine traceGrows_bind (traceGrows_bq35100_get_security_mode _) fun r => ?_
  refine traceGrows_ite _ (traceGrows_pure _) ?_
  refine traceGrows_bind traceGrows_getModeM fun m => ?_
  exact traceGrows_ite _ (traceGrows_pure _) (traceGrows_pure _)

theorem traceGrows_setSecUnsealCont (env : DEnv) (t : Nat) :
    traceGrows (setSecUnsealCont env t) := by
  unfold setSecUnsealCont
  refine traceGrows_bind (traceGrows_bq35100_write _ _) fun r => ?_
  refine traceGrows_ite _ (traceGrows_pure _) ?_
  refine traceGrows_bind (traceGrows_k_sleepOp _) fun _ => ?_
  refine traceGrows_bind (traceGrows_bq35100_write _ _) fun r => ?_
  exact traceGrows_ite _ (traceGrows_pure _) (traceGrows_setSecVerify _ _)

theorem traceGrows_readExtEnd_of {env : DEnv} {maxR n : Nat}
    (hsec : ∀ t, traceGrows (bq35100_set_security_mode env maxR n t))
    (prev : Nat) (r : Int) (d : List Nat) : traceGrows (readExtEnd env maxR n prev r d) := by
  rw [readExtEnd.eq_def]
  refine traceGrows_bind traceGrows_getModeM fun cur => ?_
  refine traceGrows_ite _ ?_ (traceGrows_pure _)
  exact traceGrows_bind (hsec prev) fun r => traceGrows_pure _

theorem traceGrows_readExtBody_of {env : DEnv} {maxR n : Nat}
    (hsec : ∀ t, traceGrows (bq35100_set_security_mode env maxR n t))
    (prev a l : Nat) : traceGrows (readExtBody env maxR n prev a l) := by
  rw [readExtBody.eq_def]
  refine traceGrows_bind (traceGrows_bq35100_send_data _ _ _) fun r => ?_
  refine traceGrows_ite _ (traceGrows_readExtEnd_of hsec _ _ _) ?_
  refine traceGrows_bind (traceGrows_bq35100_read _ _ _) fun er => ?_
  dsimp only
  refine traceGrows_ite _ (traceGrows_readExtEnd_of hsec _ _ _) ?_
  exact traceGrows_ite _ (traceGrows_readExtEnd_of hsec _ _ _)
    (traceGrows_readExtEnd_of hsec _ _ _)

theorem traceGrows_setSecFullCont_of {env : DEnv} {maxR n : Nat}
    (hre : ∀ a l, traceGrows (bq35100_read_extended_data env maxR n a l))
    (buf : List Nat) (t : Nat) : traceGrows (setSecFullCont env maxR n buf t) := by
  rw [setSecFullCont.eq_def]
  refine traceGrows_bind (hre _ _) fun p => ?_
  refine traceGrows_ite _ (traceGrows_pure _) ?_
  dsimp only
  refine traceGrows_bind (traceGrows_bq35100_write _ _) fun r => ?_
  refine traceGrows_ite _ (traceGrows_pure _) ?_
  refine traceGrows_bind (traceGrows_bq35100_write _ _) fun r => ?_
  exact traceGrows_ite _ (traceGrows_pure _) (traceGrows_setSecVerify _ _)

theorem traceGrows_mutual : ∀ n : Nat,
    (∀ env maxR t, traceGrows (bq35100_set_security_mode env maxR n t)) ∧
    (∀ env maxR a l, traceGrows (bq35100_read_extended_data env maxR n a l)) ∧
    (∀ env maxR t, traceGrows (setSecIter env maxR n t)) ∧
    (∀ env maxR t i r, traceGrows (setSecLoop env maxR t n i r)) := by
  intro n
  induction n using Nat.strong_induction_on with
  | _ n ih =>
  rcases n with _ | f
  · refine ⟨fun env maxR t => ?_, fun env maxR a l => ?_, fun env maxR t => ?_,
      fun env maxR t i r => ?_⟩
    · rw [bq35100_set_security_mode.eq_def]; exact traceGrows_pure _
    · rw [bq35100_read_extended_data.eq_def]; exact traceGrows_pure _
    · rw [setSecIter.eq_def]; exact traceGrows_pure _
    · rcases i with _ | i <;> rw [setSecLoop.eq_def] <;> exact traceGrows_pure _
  · have ihf := ih f (Nat.lt_succ_self f)
    refine ⟨fun env maxR t => ?_, fun env maxR a l => ?_, fun env maxR t => ?_,
      fun env maxR t i r => ?_⟩
    · rw [bq35100_set_security_mode.eq_def]
      refine traceGrows_bind traceGrows_getModeM fun m => ?_
      exact traceGrows_ite _ (traceGrows_pure _)
        (traceGrows_ite _ (traceGrows_pure _) (ihf.2.2.2 env maxR t maxR (-EINVAL)))
    · rw [bq35100_read_extended_data.eq_def]
      refine traceGrows_bind traceGrows_getModeM fun prev => ?_
      refine traceGrows_ite _ (traceGrows_pure _) ?_
      refine traceGrows_ite _ (traceGrows_pure _) ?_
      refine traceGrows_ite _ ?_ (traceGrows_readExtBody_of (ihf.1 env maxR) _ _ _)
      refine traceGrows_bind (ihf.1 env maxR _) fun r => ?_
      exact traceGrows_ite _ (traceGrows_pure _)
        (traceGrows_readExtBody_of (ihf.1 env maxR) _ _ _)
    · rw [setSecIter.eq_def]
      dsimp only
      refine traceGrows_ite _ ?_ ?_
      · refine traceGrows_bind (traceGrows_bq35100_send_cntl _ _) fun r => ?_
        exact traceGrows_ite _ (traceGrows_pure _) (traceGrows_setSecVerify _ _)
      · refine traceGrows_ite _ ?_ ?_
        · refine traceGrows_bind traceGrows_getModeM fun m => ?_
          refine traceGrows_ite _ ?_ (traceGrows_setSecFullCont_of (ihf.2.1 env maxR) _ _)
          refine traceGrows_bind (ihf.1 env maxR _) fun r => ?_
          exact traceGrows_ite _ (traceGrows_pure _)
            (traceGrows_setSecFullCont_of (ihf.2.1 env maxR) _ _)
        · refine traceGrows_ite _ ?_ (traceGrows_setSecVerify _ _)
          refine traceGrows_bind traceGrows_getModeM fun m => ?_
          refine traceGrows_ite _ ?_ (traceGrows_setSecUnsealCont _ _)
          refine traceGrows_bind (ihf.1 env maxR _) fun r => ?_
          exact traceGrows_ite _ (traceGrows_pure _) (traceGrows_setSecUnsealCont _ _)
    · rcases i with _ | i
      · rw [setSecLoop.eq_def]; exact traceGrows_pure _
      · rw [setSecLoop.eq_def]
        refine traceGrows_ite _ (traceGrows_pure _) ?_
        refine traceGrows_bind (ihf.2.2.1 env maxR t) fun out => ?_
        cases out with
        | error r => exact traceGrows_pure _
        | ok r => exact ihf.2.2.2 env maxR t i r

/-! ## Result/mode lemmas for the security state machine

A setSecIter outcome Except.ok r models falling through to the loop
condition; the C code reaches that point only after the verification read
observed the requested mode, so r = 0 and the tracked mode equals the
target.  Except.error r models a direct return out of
bq35100_set_security_mode, always with a nonzero r. -/

theorem setSecVerify_spec (env : DEnv) (t : Nat) (s : DState) :
    (∀ r, ((setSecVerify env t) s).1 = .ok r →
      r = 0 ∧ ((setSecVerify env t) s).2.mode = t) ∧
    (∀ e, ((setSecVerify env t) s).1 = .error e → e ≠ 0) := by
  constructor <;> intro x hx <;>
    by_cases h1 : (bq35100_get_security_mode env s).1 = 0 <;>
    by_cases h2 : ((bq35100_get_security_mode env s).2).mode = t <;>
    simp_all [setSecVerify, bind_apply, getModeM_apply, pure_apply, eioErr] <;>
    omega

/-- The result/mode contract shared by every tail of the setSecIter switch:
an Except.ok outcome implies a zero code and a tracked mode equal to the
target, an Except.error outcome is nonzero. -/
def SecSpec (t : Nat) (m : DM (Except Int Int)) : Prop :=
  ∀ s : DState,
    (∀ r, ((m s).1 = .ok r) → r = 0 ∧ ((m s).2).mode = t) ∧
    (∀ e, ((m s).1 = .error e) → e ≠ 0)

theorem SecSpec_pure_error {t : Nat} {e : Int} (he : e ≠ 0) :
    SecSpec t (pure (.error e)) := by
  intro s
  constructor
  · intro r hr
    simp [pure_apply] at hr
  · intro x hx
    simp [pure_apply] at hx
    omega

theorem SecSpec_bind {α : Type} {t : Nat} {m : DM α} {f : α → DM (Except Int Int)}
    (hf : ∀ a, SecSpec t (f a)) : SecSpec t (m >>= f) := by
  intro s
  rw [bind_apply]
  exact hf _ _

theorem SecSpec_ite {t : Nat} {c : Prop} [Decidable c] {m1 m2 : DM (Except Int Int)}
    (h1 : c → SecSpec t m1) (h2 : ¬c → SecSpec t m2) :
    SecSpec t (if c then m1 else m2) := by
  split
  · exact h1 ‹_›
  · exact h2 ‹_›

theorem SecSpec_setSecVerify (env : DEnv) (t : Nat) : SecSpec t (setSecVerify env t) :=
  fun s => setSecVerify_spec env t s

theorem SecSpec_setSecUnsealCont (env : DEnv) (t : Nat) :
    SecSpec t (setSecUnsealCont env t) := by
  unfold setSecUnsealCont
  refine SecSpec_bind fun r => ?_
  refine SecSpec_ite (fun hr => SecSpec_pure_error hr) fun _ => ?_
  refine SecSpec_bind fun _ => ?_
  refine SecSpec_bind fun r => ?_
  exact SecSpec_ite (fun hr => SecSpec_pure_error hr) fun _ => SecSpec_setSecVerify env t

theorem SecSpec_setSecFullCont (env : DEnv) (maxR n : Nat) (buf : List Nat) (t : Nat) :
    SecSpec t (setSecFullCont env maxR n buf t) := by
  rw [setSecFullCont.eq_def]
  refine SecSpec_bind fun p => ?_
  refine SecSpec_ite (fun hp => SecSpec_pure_error hp) fun _ => ?_
  dsimp only
  refine SecSpec_bind fun r => ?_
  refine SecSpec_ite (fun hr => SecSpec_pure_error hr) fun _ => ?_
  refine SecSpec_bind fun r => ?_
  exact SecSpec_ite (fun hr => SecSpec_pure_error hr) fun _ => SecSpec_setSecVerify env t

theorem SecSpec_setSecIter (env : DEnv) (maxR n t : Nat) :
    SecSpec t (setSecIter env maxR n t) := by
  rw [setSecIter.eq_def]
  rcases n with _ | f
  · exact SecSpec_pure_error (by norm_num)
  · dsimp only
    refine SecSpec_ite (fun _ => ?_) fun _ => ?_
    · refine SecSpec_bind fun r => ?_
      exact SecSpec_ite (fun hr => SecSpec_pure_error hr) fun _ => SecSpec_setSecVerify env t
    · refine SecSpec_ite (fun _ => ?_) fun _ => ?_
      · refine SecSpec_bind fun m => ?_
        refine SecSpec_ite (fun _ => ?_) fun _ => SecSpec_setSecFullCont env maxR f _ t
        refine SecSpec_bind fun r => ?_
        exact SecSpec_ite (fun hr => SecSpec_pure_error hr)
          fun _ => SecSpec_setSecFullCont env maxR f _ t
      · refine SecSpec_ite (fun _ => ?_) fun _ => SecSpec_setSecVerify env t
        refine SecSpec_bind fun m => ?_
        refine SecSpec_ite (fun _ => ?_) fun _ => SecSpec_setSecUnsealCont env t
        refine SecSpec_bind fun r => ?_
        exact SecSpec_ite (fun hr => SecSpec_pure_error hr)
          fun _ => SecSpec_setSecUnsealCont env t


/-! Step equations for the fuel-indexed definitions (the generated eq_def
exposes an unreduced match; these restate it per constructor). -/

theorem setSecLoop_eq_zi (env : DEnv) (maxR t fuel : Nat) (result : Int) :
    setSecLoop env maxR t fuel 0 result = pure result := by
  rw [setSecLoop.eq_def]

theorem setSecLoop_eq_zf (env : DEnv) (maxR t i : Nat) (result : Int) :
    setSecLoop env maxR t 0 (i + 1) result = pure result := by
  rw [setSecLoop.eq_def]

theorem setSecLoop_eq_succ (env : DEnv) (maxR t f i : Nat) (result : Int) :
    setSecLoop env maxR t (f + 1) (i + 1) result =
      (if result = 0 then pure result
      else do
        let out ← setSecIter env maxR f t
        match out with
        | .error r => pure r
        | .ok r => setSecLoop env maxR t f i r) := by
  rw [setSecLoop.eq_def]

theorem setSec_eq_zero (env : DEnv) (maxR t : Nat) :
    bq35100_set_security_mode env maxR 0 t = pure (-999) := by
  rw [bq35100_set_security_mode.eq_def]

theorem setSec_eq_succ (env : DEnv) (maxR f t : Nat) :
    bq35100_set_security_mode env maxR (f + 1) t =
      (do
        let m ← getModeM
        if t = m then pure 0
        else if t = SECURITY_UNKNOWN then pure (-EINVAL)
        else setSecLoop env maxR t f maxR (-EINVAL)) := by
  rw [bq35100_set_security_mode.eq_def]

theorem setSecLoop_mode (env : DEnv) (maxR t : Nat) : ∀ (fuel i : Nat) (result : Int) (s : DState),
    ((setSecLoop env maxR t fuel i result) s).1 = 0 →
    (result = 0 ∧ ((setSecLoop env maxR t fuel i result) s).2 = s) ∨
    ((setSecLoop env maxR t fuel i result) s).2.mode = t := by
  intro fuel
  induction fuel with
  | zero =>
    intro i result s h
    rcases i with _ | i
    · rw [setSecLoop_eq_zi] at h ⊢
      exact Or.inl ⟨h, rfl⟩
    · rw [setSecLoop_eq_zf] at h ⊢
      exact Or.inl ⟨h, rfl⟩
  | succ f ihf =>
    intro i result s h
    rcases i with _ | i
    · rw [setSecLoop_eq_zi] at h ⊢
      exact Or.inl ⟨h, rfl⟩
    · rw [setSecLoop_eq_succ] at h ⊢
      by_cases hres : result = 0
      · rw [if_pos hres] at h ⊢
        exact Or.inl ⟨hres, rfl⟩
      · rw [if_neg hres] at h ⊢
        rw [bind_apply] at h ⊢
        rcases hq : (setSecIter env maxR f t) s with ⟨out, s1⟩
        rw [hq] at h
        have hspec := SecSpec_setSecIter env maxR f t s
        rw [hq] at hspec
        cases out with
        | error e =>
          simp [pure_apply] at h
          exact absurd h (hspec.2 e rfl)
        | ok r =>
          obtain ⟨hr0, hmode⟩ := hspec.1 r rfl
          rcases ihf i r s1 h with ⟨_, hst⟩ | hm
          · refine Or.inr ?_
            show (setSecLoop env maxR t f i r s1).2.mode = t
            rw [hst]
            exact hmode
          · exact Or.inr hm

theorem setSec_mode_of_zero (env : DEnv) (maxR n t : Nat) (s : DState) :
    ((bq35100_set_security_mode env maxR n t) s).1 = 0 →
    ((bq35100_set_security_mode env maxR n t) s).2.mode = t := by
  intro h
  rcases n with _ | f
  · rw [setSec_eq_zero] at h
    simp [pure_apply] at h
  · rw [setSec_eq_succ] at h ⊢
    rw [bind_apply, getModeM_apply] at h ⊢
    by_cases h1 : t = s.mode
    · simp [h1, pure_apply]
    · rw [if_neg h1] at h ⊢
      by_cases h2 : t = SECURITY_UNKNOWN
      · rw [if_pos h2] at h
        simp [pure_apply, EINVAL] at h
      · rw [if_neg h2] at h ⊢
        rcases setSecLoop_mode env maxR t f maxR (-EINVAL) s h with ⟨habs, _⟩ | hm
        · exact absurd habs (by simp [EINVAL])
        · exact hm

theorem setSecIter_eq_succ (env : DEnv) (maxR f t : Nat) :
    setSecIter env maxR (f + 1) t =
      (do
        let buf : List Nat :=
          [BQ35100_REG_MAC, env.stack 1 % 256, env.stack 2 % 256, env.stack 3 % 256]
        if t = SECURITY_SEALED then do
          let r ← bq35100_send_cntl env BQ35100_MAC_CMD_SEALED
          if r ≠ 0 then pure (.error r) else setSecVerify env t
        else if t = SECURITY_FULL_ACCESS then do
          let m ← getModeM
          if m = SECURITY_SEALED then do
            let r ← bq35100_set_security_mode env maxR f SECURITY_UNSEALED
            if r ≠ 0 then pure (.error r) else setSecFullCont env maxR f buf t
          else setSecFullCont env maxR f buf t
        else if t = SECURITY_UNSEALED then do
          let m ← getModeM
          if m = SECURITY_FULL_ACCESS then do
            let r ← bq35100_set_security_mode env maxR f SECURITY_SEALED
            if r ≠ 0 then pure (.error r) else setSecUnsealCont env t
          else setSecUnsealCont env t
        else setSecVerify env t) := by
  rw [setSecIter.eq_def]

theorem setSecLoop_result_zero (env : DEnv) (maxR t fuel i : Nat) (s : DState) :
    (setSecLoop env maxR t fuel i 0) s = (0, s) := by
  rcases i with _ | i
  · rw [setSecLoop_eq_zi]; rfl
  · rcases fuel with _ | f
    · rw [setSecLoop_eq_zf]; rfl
    · rw [setSecLoop_eq_succ, if_pos rfl]; rfl

theorem setSecIter_full_from_sealed (env : DEnv) (maxR f : Nat) (s : DState)
    (hseal : s.mode = SECURITY_SEALED) :
    (setSecIter env maxR (f + 1) SECURITY_FULL_ACCESS) s =
      (let q := (bq35100_set_security_mode env maxR f SECURITY_UNSEALED) s
       if q.1 ≠ 0 then (.error q.1, q.2)
       else (setSecFullCont env maxR f
          [BQ35100_REG_MAC, env.stack 1 % 256, env.stack 2 % 256, env.stack 3 % 256]
          SECURITY_FULL_ACCESS) q.2) := by
  rw [setSecIter_eq_succ]
  rw [if_neg (by decide : ¬(SECURITY_FULL_ACCESS = SECURITY_SEALED))]
  rw [if_pos rfl]
  rw [bind_apply, getModeM_apply]
  rw [if_pos (by rw [hseal])]
  rw [bind_apply]
  rcases hq : (bq35100_set_security_mode env maxR f SECURITY_UNSEALED) s with ⟨r0, s0⟩
  by_cases hr : r0 = 0
  · simp [hr, pure_apply]
  · simp [hr, pure_apply]

theorem setSec_full_from_sealed (env : DEnv) (fuel j : Nat) (s : DState)
    (hseal : s.mode = SECURITY_SEALED) :
    (bq35100_set_security_mode env (j + 1) (fuel + 3) SECURITY_FULL_ACCESS) s =
      (let q := (bq35100_set_security_mode env (j + 1) fuel SECURITY_UNSEALED) s
       if q.1 ≠ 0 then q
       else
         let p := (setSecFullCont env (j + 1) fuel
             [BQ35100_REG_MAC, env.stack 1 % 256, env.stack 2 % 256, env.stack 3 % 256]
             SECURITY_FULL_ACCESS) q.2
         match p.1 with
         | .error r => (r, p.2)
         | .ok r => (setSecLoop env (j + 1) SECURITY_FULL_ACCESS (fuel + 1) j r) p.2) := by
  have e1 : bq35100_set_security_mode env (j + 1) (fuel + 3) SECURITY_FULL_ACCESS =
      (do
        let m ← getModeM
        if SECURITY_FULL_ACCESS = m then pure 0
        else if SECURITY_FULL_ACCESS = SECURITY_UNKNOWN then pure (-EINVAL)
        else setSecLoop env (j + 1) SECURITY_FULL_ACCESS (fuel + 2) (j + 1) (-EINVAL)) :=
    setSec_eq_succ env (j + 1) (fuel + 2) SECURITY_FULL_ACCESS
  rw [e1, bind_apply]
  rw [show (getModeM s).1 = s.mode from rfl, show (getModeM s).2 = s from rfl]
  rw [if_neg (show ¬(SECURITY_FULL_ACCESS = s.mode) by rw [hseal]; decide)]
  rw [if_neg (by decide : ¬(SECURITY_FULL_ACCESS = SECURITY_UNKNOWN))]
  have e2 : setSecLoop env (j + 1) SECURITY_FULL_ACCESS (fuel + 2) (j + 1) (-EINVAL) =
      (if (-EINVAL : Int) = 0 then pure (-EINVAL)
       else do
         let out ← setSecIter env (j + 1) (fuel + 1) SECURITY_FULL_ACCESS
         match out with
         | .error r => pure r
         | .ok r => setSecLoop env (j + 1) SECURITY_FULL_ACCESS (fuel + 1) j r) :=
    setSecLoop_eq_succ env (j + 1) SECURITY_FULL_ACCESS (fuel + 1) j (-EINVAL)
  rw [e2, if_neg (by norm_num [EINVAL]), bind_apply]
  rw [setSecIter_full_from_sealed env (j + 1) fuel s hseal]
  rcases hq : (bq35100_set_security_mode env (j + 1) fuel SECURITY_UNSEALED) s with ⟨r0, s0⟩
  by_cases hr : r0 = 0
  · simp only [hq, hr, dif_eq_if, if_neg (by norm_num : ¬((0 : Int) ≠ 0))]
    rcases hp : (setSecFullCont env (j + 1) fuel
        [BQ35100_REG_MAC, env.stack 1 % 256, env.stack 2 % 256, env.stack 3 % 256]
        SECURITY_FULL_ACCESS) s0 with ⟨out, s1⟩
    cases out <;> simp [pure_apply]
  · simp only [hq, if_pos (by simpa using hr : (r0, s0).1 ≠ 0)]
    simp [pure_apply, hr]

/-- C9: from a tracked Sealed mode, SetMode(FullAccess) first runs the
complete SetMode(Unsealed) transition.  If that intermediate transition
fails, the FullAccess request returns its error with exactly the
intermediate transition state - no full-access key is read or sent.  If it
succeeds, the tracked mode has passed through Unsealed and all further bus
events strictly extend the trace of the intermediate transition.  The fuel
offset (+3) accounts for the loop and switch layers between the outer call
and the recursive call in the source. -/
theorem claim_C9_sealed_to_full_access_traverses_unsealed
    (env : DEnv) (maxR fuel j : Nat) (s : DState)
    (hseal : s.mode = SECURITY_SEALED) (hmax : maxR = j + 1) :
    (((bq35100_set_security_mode env maxR fuel SECURITY_UNSEALED) s).1 ≠ 0 →
      (bq35100_set_security_mode env maxR (fuel + 3) SECURITY_FULL_ACCESS) s =
      (bq35100_set_security_mode env maxR fuel SECURITY_UNSEALED) s) ∧
    (((bq35100_set_security_mode env maxR fuel SECURITY_UNSEALED) s).1 = 0 →
      ((bq35100_set_security_mode env maxR fuel SECURITY_UNSEALED) s).2.mode =
        SECURITY_UNSEALED ∧
      ∃ t, ((bq35100_set_security_mode env maxR (fuel + 3) SECURITY_FULL_ACCESS) s).2.trace =
        ((bq35100_set_security_mode env maxR fuel SECURITY_UNSEALED) s).2.trace ++ t) := by
  subst hmax
  have hred := setSec_full_from_sealed env fuel j s hseal
  have hmode := setSec_mode_of_zero env (j + 1) fuel SECURITY_UNSEALED s
  rcases hq : (bq35100_set_security_mode env (j + 1) fuel SECURITY_UNSEALED) s with ⟨r0, s0⟩
  rw [hq] at hred hmode
  dsimp only at hred hmode ⊢
  constructor
  · intro hr0
    rw [hred, if_pos hr0]
  · intro hr0
    refine ⟨hmode hr0, ?_⟩
    rw [hred, if_neg (by simp [hr0])]
    have hgrow := traceGrows_setSecFullCont_of
      (fun a l => (traceGrows_mutual fuel).2.1 env (j + 1) a l)
      [BQ35100_REG_MAC, env.stack 1 % 256, env.stack 2 % 256, env.stack 3 % 256]
      SECURITY_FULL_ACCESS s0
    have hspec := SecSpec_setSecFullCont env (j + 1) fuel
      [BQ35100_REG_MAC, env.stack 1 % 256, env.stack 2 % 256, env.stack 3 % 256]
      SECURITY_FULL_ACCESS s0
    rcases hp : (setSecFullCont env (j + 1) fuel
        [BQ35100_REG_MAC, env.stack 1 % 256, env.stack 2 % 256, env.stack 3 % 256]
        SECURITY_FULL_ACCESS) s0 with ⟨out, s1⟩
    rw [hp] at hgrow hspec
    obtain ⟨t, ht⟩ := hgrow
    cases out with
    | error r => exact ⟨t, ht⟩
    | ok r =>
      obtain ⟨hr, _⟩ := hspec.1 r rfl
      subst hr
      show ∃ u, ((setSecLoop env (j + 1) SECURITY_FULL_ACCESS (fuel + 1) j 0) s1).2.trace =
        s0.trace ++ u
      rw [setSecLoop_result_zero]
      exact ⟨t, ht⟩

/-- Witness for C9: when the intermediate SetMode(Unsealed) fails (here by
fuel exhaustion of the embedding), SetMode(FullAccess) from Sealed returns
exactly its error and state - no key transactions. -/
theorem claim_C9_sealed_to_full_access_traverses_unsealed_witness :
    bq35100_set_security_mode ⟨fun _ => .error (-eioErr), fun _ => 0⟩ 1 3
        SECURITY_FULL_ACCESS ⟨SECURITY_SEALED, 0, []⟩ = (-999, ⟨SECURITY_SEALED, 0, []⟩) := by
  have h := claim_C9_sealed_to_full_access_traverses_unsealed
    ⟨fun _ => .error (-eioErr), fun _ => 0⟩ 1 0 0 ⟨SECURITY_SEALED, 0, []⟩ rfl rfl
  have hinner : bq35100_set_security_mode ⟨fun _ => .error (-eioErr), fun _ => 0⟩ 1 0
      SECURITY_UNSEALED ⟨SECURITY_SEALED, 0, []⟩ = ((-999 : Int), ⟨SECURITY_SEALED, 0, []⟩) := by
    rw [setSec_eq_zero]
    rfl
  have h1 := h.1 (by rw [hinner]; norm_num)
  rw [h1, hinner]
